import Mathlib

/-!
Verification of the activity-event aggregation, scoring, drift-detection and
context-routing engine.

Shallow embedding conventions: Python floats are modelled as exact rationals
(ℚ); Python `round(x, 2)` is modelled as rounding half up over ℚ (no claim in
scope touches a half-way tie); wall-clock timestamps are omitted (no claim
depends on them); calendar dates are modelled as integers (day numbers);
Python dicts keyed by user id become total functions `String → ℕ` defaulting
to 0 (mirroring `defaultdict(int)`); external sinks (Firebase, Twilio) are
dropped from the embedding since they do not feed back into any computation.
-/

/-- Python `round(x, 2)`: round to two decimal places. -/
def round2 (x : ℚ) : ℚ := ((x * 100 + 1/2).floor : ℚ) / 100

/-- `round2` expressed through Mathlib's `Int.floor` for symbolic reasoning. -/
theorem round2_eq_floor (x : ℚ) : round2 x = ((⌊x * 100 + 1/2⌋ : ℤ) : ℚ) / 100 := by
  simp only [round2, Rat.floor_def', Rat.floor_def]

/-- Evaluation rule for `round2` given bracketing bounds on the scaled value. -/
theorem round2_eq_of_bounds (x : ℚ) (n : ℤ) (h1 : (n : ℚ) ≤ x * 100 + 1/2)
    (h2 : x * 100 + 1/2 < n + 1) : round2 x = (n : ℚ) / 100 := by
  rw [round2_eq_floor, Int.floor_eq_iff.mpr ⟨h1, h2⟩]

theorem round2_nonneg {x : ℚ} (h : 0 ≤ x) : 0 ≤ round2 x := by
  rw [round2_eq_floor]
  have : (0 : ℤ) ≤ ⌊x * 100 + 1/2⌋ := Int.le_floor.mpr (by push_cast; linarith)
  positivity

theorem round2_le_100 {x : ℚ} (h : x ≤ 100) : round2 x ≤ 100 := by
  rw [round2_eq_floor]
  have hf : ⌊x * 100 + 1/2⌋ ≤ 10000 := by
    have : ⌊x * 100 + 1/2⌋ < 10001 := Int.floor_lt.mpr (by push_cast; linarith)
    omega
  have : ((⌊x * 100 + 1/2⌋ : ℤ) : ℚ) ≤ 10000 := by exact_mod_cast hf
  linarith

namespace RiskScoring

/-- `ActivityEvent` from `src/risk/risk_scoring.py` (timestamp omitted). -/
structure ActivityEvent where
  activity : String
  fall_prob : ℚ
  is_fall : Bool
deriving DecidableEq, Repr

/-- The near-fall test `0.45 <= e.fall_prob < 0.7` from `compute_fall_risk`. -/
def nearFallTest (e : ActivityEvent) : Bool :=
  decide (0.45 ≤ e.fall_prob ∧ e.fall_prob < 0.7)

/-- `RiskScorer.compute_fall_risk`. -/
def computeFallRisk (events : List ActivityEvent) : ℚ :=
  if events = [] then 0
  else
    let total : ℚ := events.length
    let fallCount : ℚ := events.countP (fun e => e.is_fall)
    let nearFallCount : ℚ := events.countP nearFallTest
    let transitionInstability : ℚ := events.countP (fun e => e.activity == "Transitions")
    let prolongedInactivity : ℚ :=
      if ((events.countP (fun e => e.activity == "Static") : ℚ)) > total * 0.6 then 1 else 0
    let risk :=
      0.4 * (fallCount / total) +
      0.3 * (nearFallCount / total) +
      0.2 * (transitionInstability / total) +
      0.1 * prolongedInactivity
    round2 (min (risk * 100) 100)

/-- `RiskScorer.compute_safety_risk`. -/
def computeSafetyRisk (events : List ActivityEvent) : ℚ :=
  if events = [] then 0
  else
    let total : ℚ := events.length
    let exertionCount : ℚ := events.countP (fun e => e.activity == "Exercise")
    let transitionRisk : ℚ := events.countP (fun e => e.activity == "Transitions")
    let risk := (exertionCount + transitionRisk) / total
    round2 (min (risk * 100) 100)

/-- `RiskScorer.compute_rehab_progress`. -/
def computeRehabProgress (events : List ActivityEvent) : ℚ :=
  if events = [] then 0
  else
    let total : ℚ := events.length
    let walkRatio : ℚ := (events.countP (fun e => e.activity == "Walk") : ℚ) / total
    let transitionRatio : ℚ := (events.countP (fun e => e.activity == "Transitions") : ℚ) / total
    let fallRatio : ℚ := (events.countP (fun e => e.is_fall) : ℚ) / total
    let progress :=
      0.5 * walkRatio +
      0.3 * (1 - transitionRatio) +
      0.2 * (1 - fallRatio)
    round2 (progress * 100)

end RiskScoring

namespace BaselineDrift

/-- `ActivityEvent` from `src/elderly/baseline_drift.py`; the timestamp is
kept only through its calendar date (`event.timestamp.date()`), modelled as an
integer day number. -/
structure ActivityEvent where
  day : ℤ
  activity : String
deriving DecidableEq, Repr

/-- The detector's event store (`self.daily_events`), modelled as the arrival
list of all added events; the per-day bucket is recovered by filtering, which
preserves per-day insertion order exactly as the `defaultdict(list)` does. -/
def addEvent (store : List ActivityEvent) (e : ActivityEvent) : List ActivityEvent :=
  store ++ [e]

/-- The bucket `self.daily_events.get(day, [])`. -/
def dailyEvents (store : List ActivityEvent) (day : ℤ) : List ActivityEvent :=
  store.filter (fun e => e.day == day)

/-- The metric dict `{"walk": _, "transitions": _, "static": _}`. -/
structure Metrics where
  walk : ℕ
  transitions : ℕ
  static : ℕ
deriving DecidableEq, Repr

/-- `BaselineDriftDetector._extract_metrics`. -/
def extractMetrics (events : List ActivityEvent) : Metrics :=
  if events = [] then ⟨0, 0, 0⟩
  else
    ⟨events.countP (fun e => e.activity == "Walk"),
     events.countP (fun e => e.activity == "Transitions"),
     events.countP (fun e => e.activity == "Static")⟩

/-- `BaselineDriftDetector.compute_baseline` (with `baseline_days` passed
explicitly; the source default is 7). -/
def computeBaseline (store : List ActivityEvent) (baselineDays : ℕ) (startDay : ℤ) : Metrics :=
  extractMetrics ((List.range baselineDays).flatMap (fun i => dailyEvents store (startDay + i)))

/-- `BaselineDriftDetector.compute_current_week`. -/
def computeCurrentWeek (store : List ActivityEvent) (endDay : ℤ) : Metrics :=
  extractMetrics ((List.range 7).flatMap (fun i => dailyEvents store (endDay - i)))

/-- The drift result dict. -/
structure DriftResult where
  drift_score : ℕ
  drift_level : String
  alerts : List String
deriving DecidableEq, Repr

/-- `BaselineDriftDetector._map_drift_level`. -/
def mapDriftLevel (score : ℕ) : String :=
  if score = 0 then "Low"
  else if score = 1 then "Medium"
  else "High"

/-- `BaselineDriftDetector.detect_drift`. -/
def detectDrift (baseline current : Metrics) : DriftResult :=
  let fire1 := (current.walk : ℚ) < (baseline.walk : ℚ) * 0.8
  let fire2 := (current.transitions : ℚ) > (baseline.transitions : ℚ) * 1.2
  let fire3 := (current.static : ℚ) > (baseline.static : ℚ) * 1.25
  let score1 : ℕ := if fire1 then 1 else 0
  let alerts1 : List String :=
    if fire1 then ["Walking activity has declined compared to baseline."] else []
  let score2 := score1 + if fire2 then 1 else 0
  let alerts2 := alerts1 ++ if fire2 then ["Increase in unstable transitions detected."] else []
  let score3 := score2 + if fire3 then 1 else 0
  let alerts3 := alerts2 ++ if fire3 then ["Prolonged inactivity compared to baseline."] else []
  let driftLevel := mapDriftLevel score3
  let alertsFinal := if alerts3 = [] then ["No significant mobility drift detected."] else alerts3
  ⟨score3, driftLevel, alertsFinal⟩

end BaselineDrift

namespace CaregiverAlerts

/-- `DriftResult` from `src/elderly/caregiver_alerts.py`. -/
structure DriftResult where
  drift_level : String
  alerts : List String
deriving DecidableEq, Repr

/-- `CaregiverAlertGenerator._analyze_risk_trend`; a `RiskSnapshot` is kept
only through its `fall_risk_score` (the timestamp is never read). -/
def analyzeRiskTrend (history : List ℚ) : String :=
  if history.length < 3 then "Stable"
  else
    match history.drop (history.length - 3) with
    | [s0, s1, s2] =>
      if s2 > 70 then "High"
      else if s0 < s1 ∧ s1 < s2 then "Increasing"
      else "Stable"
    | _ => "Stable"   -- unreachable: the dropped list always has length 3 here

/-- `CaregiverAlertGenerator._severity_rank` (the source dict raises on an
unknown key; only "Low"/"Medium"/"High" ever reach it). -/
def severityRank (level : String) : ℕ :=
  if level = "Medium" then 1
  else if level = "High" then 2
  else 0

/-- Python `max(a, b, key=self._severity_rank)` (returns the first argument
on ties, as `max` does). -/
def maxSeverity (a b : String) : String :=
  if severityRank b ≤ severityRank a then a else b

/-- Severity after the `risk_trend == "Increasing"` rule (initially "Low"). -/
def sevAfterIncreasing (trend : String) : String :=
  if trend = "Increasing" then "Medium" else "Low"

/-- Severity after the `risk_trend == "High"` rule. -/
def sevAfterHigh (trend : String) (s : String) : String :=
  if trend = "High" then "High" else s

/-- Severity after the `drift_level == "Medium"` rule. -/
def sevAfterDriftMedium (driftLevel : String) (s : String) : String :=
  if driftLevel = "Medium" then maxSeverity s "Medium" else s

/-- Severity after the `drift_level == "High"` rule. -/
def sevAfterDriftHigh (driftLevel : String) (s : String) : String :=
  if driftLevel = "High" then "High" else s

/-- The final severity reached by `generate_alert`'s rule sequence. -/
def finalSeverity (trend driftLevel : String) : String :=
  sevAfterDriftHigh driftLevel
    (sevAfterDriftMedium driftLevel (sevAfterHigh trend (sevAfterIncreasing trend)))

/-- The closing recommendation appended by `generate_alert`. -/
def recommendationOf (severity : String) : String :=
  if severity = "High" then "Recommend immediate caregiver check-in or medical consultation."
  else if severity = "Medium" then "Recommend caregiver monitoring and follow-up."
  else "Mobility stable. No immediate intervention required."

/-- The messages accumulated by `generate_alert` before the closing
recommendation, in the source's append order. -/
def preMessages (trend : String) (drift : DriftResult) : List String :=
  (if trend = "Increasing"
    then ["Fall risk has been increasing steadily over recent days."] else []) ++
  (if trend = "High"
    then ["High fall risk detected. Immediate attention is recommended."] else []) ++
  (if drift.drift_level = "Medium"
    then ["Mobility patterns show noticeable decline compared to baseline."] else []) ++
  (if drift.drift_level = "High"
    then ["Significant mobility decline detected over multiple weeks."] else []) ++
  drift.alerts.filter (fun a => a ≠ "No significant mobility drift detected.")

/-- The alert payload returned by `generate_alert` (timestamp omitted). -/
structure AlertPayload where
  user_id : String
  severity : String
  messages : List String
  drift_level : String
  latest_fall_risk : Option ℚ
deriving DecidableEq, Repr

/-- The part of `CaregiverAlertGenerator.generate_alert` downstream of the
trend computation, parametrised by the trend label. -/
def composeAlert (userId : String) (trend : String) (riskHistory : List ℚ)
    (drift : DriftResult) : AlertPayload :=
  let severity := finalSeverity trend drift.drift_level
  { user_id := userId
    severity := severity
    messages := preMessages trend drift ++ [recommendationOf severity]
    drift_level := drift.drift_level
    latest_fall_risk := riskHistory.getLast? }

/-- `CaregiverAlertGenerator.generate_alert`. -/
def generateAlert (userId : String) (riskHistory : List ℚ) (drift : DriftResult) :
    AlertPayload :=
  composeAlert userId (analyzeRiskTrend riskHistory) riskHistory drift

end CaregiverAlerts

namespace WorkplaceSafety

/-- `ZoneEvent` from `src/workplace/workplace_safety.py` (timestamp omitted). -/
structure ZoneEvent where
  user_id : String
  zone : String
deriving DecidableEq, Repr

/-- `ActivityEvent` from `src/workplace/workplace_safety.py` (timestamp omitted). -/
structure ActivityEvent where
  user_id : String
  activity : String
deriving DecidableEq, Repr

/-- `Violation` (timestamp omitted). -/
structure Violation where
  user_id : String
  violation_type : String
  severity : String
deriving DecidableEq, Repr

/-- The engine's mutable state: `self.violations` and
`self.user_violation_count` (a `defaultdict(int)`). -/
structure EngineState where
  violations : List Violation
  user_violation_count : String → ℕ

/-- The engine's initial state (`__init__`). -/
def initState : EngineState :=
  { violations := [], user_violation_count := fun _ => 0 }

/-- `WorkplaceSafetyEngine._log_violation` (the `zone` argument is only used
for the Firebase push, which the embedding drops). -/
def logViolation (s : EngineState) (userId violationType severity : String)
    (_zone : String) : EngineState :=
  { violations := s.violations ++ [⟨userId, violationType, severity⟩]
    user_violation_count :=
      Function.update s.user_violation_count userId (s.user_violation_count userId + 1) }

/-- `WorkplaceSafetyEngine.evaluate_event`. -/
def evaluateEvent (s : EngineState) (zoneEvent : ZoneEvent)
    (activityEvent : ActivityEvent) : EngineState :=
  if zoneEvent.user_id ≠ activityEvent.user_id then s
  else
    let user := zoneEvent.user_id
    let s1 :=
      if zoneEvent.zone = "Restricted_Zone" ∧ activityEvent.activity = "Walk" then
        logViolation s user "Unauthorized entry into restricted zone" "High" zoneEvent.zone
      else s
    let s2 :=
      if activityEvent.activity = "Exercise" then
        logViolation s1 user "Overexertion detected" "Medium" zoneEvent.zone
      else s1
    let s3 :=
      if activityEvent.activity = "Static" then
        logViolation s2 user "Prolonged inactivity (collapse risk)" "Medium" zoneEvent.zone
      else s2
    s3

/-- `WorkplaceSafetyEngine.get_escalation_level`. -/
def getEscalationLevel (s : EngineState) (userId : String) : String :=
  let count := s.user_violation_count userId
  if count ≥ 5 then "Admin Escalation"
  else if count ≥ 3 then "Supervisor Alert"
  else if count ≥ 1 then "Warning"
  else "No Action"

/-- `WorkplaceSafetyEngine.compute_safety_score`. -/
def computeSafetyScore (s : EngineState) (userId : String) : ℤ :=
  max (100 - (s.user_violation_count userId : ℤ) * 15) 0

end WorkplaceSafety

namespace ContextEngine

/-- The activity-event dict handed to `ContextEngine.route_event`; the
`fall_prob` key may be absent (`activity_event.get("fall_prob", 0.0)`). -/
structure CEvent where
  user_id : String
  activity : String
  fall_prob : Option ℚ
deriving DecidableEq, Repr

/-- The zone-event dict (only its `zone` key is read). -/
structure ZEvent where
  zone : String
deriving DecidableEq, Repr

/-- The user-profile dict (only its `role` key drives routing). -/
structure Profile where
  user_id : String
  role : String
deriving DecidableEq, Repr

/-- The record returned by `_elderly_logic` (domain and timestamp omitted:
the former is the constant "elderly", the latter is wall clock). -/
structure ElderlyRecord where
  user_id : String
  activity : String
  fall_probability : ℚ
  insights : List String
  risk_contributors : List String
  output : String
deriving DecidableEq, Repr

/-- `ContextEngine._elderly_logic`. -/
def elderlyLogic (ev : CEvent) : ElderlyRecord :=
  let activity := ev.activity
  let fallProb := ev.fall_prob.getD 0
  let insights :=
    (if activity = "Walk" then ["Walking activity observed"] else []) ++
    (if activity = "Transitions" then ["Instability detected during posture change"] else []) ++
    (if activity = "Static" then ["Prolonged inactivity detected"] else []) ++
    (if activity = "Exercise" then ["Fatigue risk detected"] else []) ++
    (if activity = "Stairs" then ["Stair usage increases fall risk"] else []) ++
    (if fallProb > 0.6 then ["High fall risk detected"] else [])
  let riskContributors :=
    (if activity = "Transitions" then ["transition_instability"] else []) ++
    (if activity = "Static" then ["inactivity"] else []) ++
    (if activity = "Stairs" then ["stairs_risk"] else []) ++
    (if fallProb > 0.6 then ["fall_risk"] else [])
  { user_id := ev.user_id
    activity := activity
    fall_probability := round2 fallProb
    insights := insights
    risk_contributors := riskContributors
    output := "Caregiver alert / preventive recommendation" }

/-- The record returned by `_workplace_logic` (domain and timestamp omitted). -/
structure WorkplaceRecord where
  user_id : String
  activity : String
  zone : String
  violations : List String
  violation_count : ℕ
  escalation_level : String
  safety_score : ℤ
  output : String
deriving DecidableEq, Repr

/-- `ContextEngine._escalation_level`. -/
def escalationLevel (count : ℕ) : String :=
  if count ≥ 5 then "Admin Escalation"
  else if count ≥ 3 then "Supervisor Alert"
  else if count ≥ 1 then "Warning"
  else "No Action"

/-- `ContextEngine._workplace_logic`. The engine state is the per-user
violation counter dict `self.workplace_violations`; each fired rule appends
its message and increments the user's counter by one, so the counter grows by
the number of fired rules. -/
def workplaceLogic (counts : String → ℕ) (ev : CEvent) (zoneEvent : Option ZEvent) :
    (String → ℕ) × WorkplaceRecord :=
  let userId := ev.user_id
  let activity := ev.activity
  let zone := match zoneEvent with
    | some z => z.zone
    | none => "Unknown"
  let zoneViolations := match zoneEvent with
    | some z =>
      (if z.zone = "Restricted_Zone" ∧ activity = "Walk"
        then ["Restricted zone entry"] else []) ++
      (if z.zone = "Hazard_Zone" ∧ activity = "Stairs"
        then ["Hazard zone stair activity"] else [])
    | none => []
  let activityViolations :=
    (if activity = "Exercise" then ["Overexertion risk"] else []) ++
    (if activity = "Static" then ["Possible collapse risk"] else []) ++
    (if activity = "Transitions" then ["Unsafe posture detected"] else [])
  let violations := zoneViolations ++ activityViolations
  let counts2 := Function.update counts userId (counts userId + violations.length)
  let violationCount := counts2 userId
  (counts2,
    { user_id := userId
      activity := activity
      zone := zone
      violations := violations
      violation_count := violationCount
      escalation_level := escalationLevel violationCount
      safety_score := max (100 - (violationCount : ℤ) * 15) 0
      output := "Warning / Supervisor / Admin escalation" })

/-- The record returned by `_rehab_logic` (domain and timestamp omitted). -/
structure RehabRecord where
  user_id : String
  activity : String
  status : String
deriving DecidableEq, Repr

/-- The four shapes of record `route_event` can return. -/
inductive RouteResult where
  | elderly : ElderlyRecord → RouteResult
  | workplace : WorkplaceRecord → RouteResult
  | rehab : RehabRecord → RouteResult
  | unknownRole : RouteResult
deriving DecidableEq, Repr

/-- `ContextEngine.route_event` (Firebase pushes dropped). -/
def routeEvent (counts : String → ℕ) (profile : Profile) (ev : CEvent)
    (zoneEvent : Option ZEvent) : (String → ℕ) × RouteResult :=
  if profile.role = "elderly" then
    (counts, RouteResult.elderly (elderlyLogic ev))
  else if profile.role = "employee" then
    let r := workplaceLogic counts ev zoneEvent
    (r.1, RouteResult.workplace r.2)
  else if profile.role = "rehab" then
    (counts, RouteResult.rehab ⟨ev.user_id, ev.activity, "Tracked for rehabilitation analysis"⟩)
  else
    (counts, RouteResult.unknownRole)

end ContextEngine

/-! ## Helper lemmas -/

namespace RiskScoring

theorem count_ratio_nonneg (p : ActivityEvent → Bool) (l : List ActivityEvent) :
    0 ≤ (l.countP p : ℚ) / (l.length : ℚ) := by positivity

theorem length_cast_pos {l : List ActivityEvent} (h : l ≠ []) : 0 < (l.length : ℚ) := by
  exact_mod_cast List.length_pos.mpr h

theorem count_ratio_le_one (p : ActivityEvent → Bool) {l : List ActivityEvent} (h : l ≠ []) :
    (l.countP p : ℚ) / (l.length : ℚ) ≤ 1 := by
  rw [div_le_one (length_cast_pos h)]
  exact_mod_cast List.countP_le_length p

theorem computeFallRisk_nonneg (events : List ActivityEvent) : 0 ≤ computeFallRisk events := by
  by_cases h : events = []
  · simp [computeFallRisk, h]
  · simp only [computeFallRisk, if_neg h]
    apply round2_nonneg
    apply le_min _ (by norm_num)
    have h1 := count_ratio_nonneg (fun e => e.is_fall) events
    have h2 := count_ratio_nonneg nearFallTest events
    have h3 := count_ratio_nonneg (fun e => e.activity == "Transitions") events
    split_ifs <;> nlinarith

theorem computeFallRisk_le_100 (events : List ActivityEvent) :
    computeFallRisk events ≤ 100 := by
  by_cases h : events = []
  · simp [computeFallRisk, h]
  · simp only [computeFallRisk, if_neg h]
    exact round2_le_100 (min_le_right _ _)

theorem computeSafetyRisk_nonneg (events : List ActivityEvent) :
    0 ≤ computeSafetyRisk events := by
  by_cases h : events = []
  · simp [computeSafetyRisk, h]
  · simp only [computeSafetyRisk, if_neg h]
    apply round2_nonneg
    apply le_min _ (by norm_num)
    have hl := length_cast_pos h
    positivity

theorem computeSafetyRisk_le_100 (events : List ActivityEvent) :
    computeSafetyRisk events ≤ 100 := by
  by_cases h : events = []
  · simp [computeSafetyRisk, h]
  · simp only [computeSafetyRisk, if_neg h]
    exact round2_le_100 (min_le_right _ _)

theorem computeRehabProgress_nonneg (events : List ActivityEvent) :
    0 ≤ computeRehabProgress events := by
  by_cases h : events = []
  · simp [computeRehabProgress, h]
  · simp only [computeRehabProgress, if_neg h]
    apply round2_nonneg
    have h1 := count_ratio_nonneg (fun e => e.activity == "Walk") events
    have h2 := count_ratio_le_one (fun e => e.activity == "Transitions") h
    have h3 := count_ratio_le_one (fun e => e.is_fall) h
    nlinarith

theorem computeRehabProgress_le_100 (events : List ActivityEvent) :
    computeRehabProgress events ≤ 100 := by
  by_cases h : events = []
  · simp [computeRehabProgress, h]
  · simp only [computeRehabProgress, if_neg h]
    apply round2_le_100
    have h1 := count_ratio_le_one (fun e => e.activity == "Walk") h
    have h2 := count_ratio_nonneg (fun e => e.activity == "Transitions") events
    have h3 := count_ratio_nonneg (fun e => e.is_fall) events
    nlinarith

end RiskScoring

/-! ## Claim theorems -/

open RiskScoring in
/-- C6: `compute_fall_risk`, `compute_safety_risk` and `compute_rehab_progress`
each return 0.0 on the empty event list, and on every event list all three
return values lie in [0, 100] (the rehab bound following from its weights,
with no clamp applied). -/
theorem C6_risk_scorer_bounds :
    computeFallRisk [] = 0 ∧ computeSafetyRisk [] = 0 ∧ computeRehabProgress [] = 0 ∧
    ∀ events : List ActivityEvent,
      (0 ≤ computeFallRisk events ∧ computeFallRisk events ≤ 100) ∧
      (0 ≤ computeSafetyRisk events ∧ computeSafetyRisk events ≤ 100) ∧
      (0 ≤ computeRehabProgress events ∧ computeRehabProgress events ≤ 100) := by
  refine ⟨by simp [computeFallRisk], by simp [computeSafetyRisk],
    by simp [computeRehabProgress], fun events => ?_⟩
  exact ⟨⟨computeFallRisk_nonneg events, computeFallRisk_le_100 events⟩,
    ⟨computeSafetyRisk_nonneg events, computeSafetyRisk_le_100 events⟩,
    ⟨computeRehabProgress_nonneg events, computeRehabProgress_le_100 events⟩⟩

namespace RiskScoring

/-- Any 14-event list with exactly 3 falls, 4 near-falls, 3 Transitions and
7 Static scores `round(100 * (0.4*3/14 + 0.3*4/14 + 0.2*3/14), 2) = 21.43`:
the static count 7 does not exceed `0.6 * 14`, so `prolonged_inactivity` is 0. -/
theorem computeFallRisk_scenarioB (events : List ActivityEvent)
    (hlen : events.length = 14)
    (hfall : events.countP (fun e => e.is_fall) = 3)
    (hnear : events.countP nearFallTest = 4)
    (htr : events.countP (fun e => e.activity == "Transitions") = 3)
    (hst : events.countP (fun e => e.activity == "Static") = 7) :
    computeFallRisk events = 2143 / 100 := by
  have h : events ≠ [] := by
    intro he
    rw [he] at hlen
    simp at hlen
  simp only [computeFallRisk, if_neg h]
  rw [hlen, hfall, hnear, htr, hst]
  push_cast
  rw [if_neg (by norm_num : ¬((7 : ℚ) > 14 * 0.6))]
  rw [min_eq_left (by norm_num)]
  rw [round2_eq_of_bounds _ 2143 (by norm_num) (by norm_num)]
  norm_num

/-- A concrete scenario-B event list: 4 Walk (the first three marked as
falls, all four with fall probability 0.5), 3 Transitions, 7 Static. -/
def scenarioBEvents : List ActivityEvent :=
  [⟨"Walk", 1/2, true⟩, ⟨"Walk", 1/2, true⟩, ⟨"Walk", 1/2, true⟩, ⟨"Walk", 1/2, false⟩,
   ⟨"Transitions", 0, false⟩, ⟨"Transitions", 0, false⟩, ⟨"Transitions", 0, false⟩,
   ⟨"Static", 0, false⟩, ⟨"Static", 0, false⟩, ⟨"Static", 0, false⟩, ⟨"Static", 0, false⟩,
   ⟨"Static", 0, false⟩, ⟨"Static", 0, false⟩, ⟨"Static", 0, false⟩]

theorem scenarioBEvents_length : scenarioBEvents.length = 14 := by decide

theorem scenarioBEvents_falls : scenarioBEvents.countP (fun e => e.is_fall) = 3 := by decide

theorem scenarioBEvents_nearFalls : scenarioBEvents.countP nearFallTest = 4 := by
  norm_num [scenarioBEvents, nearFallTest, List.countP_cons, List.countP_nil]

theorem scenarioBEvents_transitions :
    scenarioBEvents.countP (fun e => e.activity == "Transitions") = 3 := by decide

theorem scenarioBEvents_static :
    scenarioBEvents.countP (fun e => e.activity == "Static") = 7 := by decide

end RiskScoring

open RiskScoring in
/-- C1 counterexample: on a concrete 14-event list with exactly 3 falls,
4 near-falls, 3 Transitions and 7 Static, `compute_fall_risk` returns 21.43,
not the claimed 25.0. -/
theorem C1_counterexample :
    computeFallRisk scenarioBEvents = 2143 / 100 ∧ (2143 / 100 : ℚ) ≠ 25 := by
  constructor
  · exact computeFallRisk_scenarioB scenarioBEvents scenarioBEvents_length
      scenarioBEvents_falls scenarioBEvents_nearFalls scenarioBEvents_transitions
      scenarioBEvents_static
  · norm_num

open RiskScoring in
/-- C1 (amended): for every list of 14 ActivityEvents of which exactly 3 have
`is_fall` true, exactly 4 have `fall_prob` in [0.45, 0.7), exactly 3 have
activity "Transitions" and exactly 7 have activity "Static",
`RiskScorer.compute_fall_risk` returns 21.43 (Scenario B: static count 7 does
not exceed 0.6 × 14, so `prolonged_inactivity` is 0, and the returned value
reproduces `round(100 × (0.4×3/14 + 0.3×4/14 + 0.2×3/14 + 0.1×0), 2)`). -/
theorem C1_fall_risk_scenario_b (events : List ActivityEvent)
    (hlen : events.length = 14)
    (hfall : events.countP (fun e => e.is_fall) = 3)
    (hnear : events.countP nearFallTest = 4)
    (htr : events.countP (fun e => e.activity == "Transitions") = 3)
    (hst : events.countP (fun e => e.activity == "Static") = 7) :
    computeFallRisk events = 2143 / 100 :=
  computeFallRisk_scenarioB events hlen hfall hnear htr hst

open RiskScoring in
/-- C1 witness: the concrete scenario-B list satisfies all five count
hypotheses and evaluates to 21.43. -/
theorem C1_fall_risk_scenario_b_witness :
    computeFallRisk scenarioBEvents = 2143 / 100 :=
  C1_fall_risk_scenario_b scenarioBEvents scenarioBEvents_length scenarioBEvents_falls
    scenarioBEvents_nearFalls scenarioBEvents_transitions scenarioBEvents_static

open BaselineDrift in
/-- C3: for every pair of baseline and current metric dicts with non-negative
counts, `detect_drift` returns a `drift_score` in {0,1,2,3} equal to the
number of the three fixed rules that fire (walk decline, transitions
increase, static increase, in that order); `drift_level` is exactly
0 → "Low", 1 → "Medium", 2 → "High", 3 → "High"; and the alerts list is never
empty — exactly the no-drift sentinel when no rule fires, and otherwise
exactly the fired rules' narrative strings in rule order. -/
theorem C3_detect_drift_structure (b c : Metrics) :
    (detectDrift b c).drift_score =
      ((if (c.walk : ℚ) < (b.walk : ℚ) * 0.8 then 1 else 0) +
       (if (c.transitions : ℚ) > (b.transitions : ℚ) * 1.2 then 1 else 0) +
       (if (c.static : ℚ) > (b.static : ℚ) * 1.25 then 1 else 0) : ℕ) ∧
    (detectDrift b c).drift_score ≤ 3 ∧
    (detectDrift b c).drift_level =
      (if (detectDrift b c).drift_score = 0 then "Low"
       else if (detectDrift b c).drift_score = 1 then "Medium"
       else if (detectDrift b c).drift_score = 2 then "High" else "High") ∧
    (detectDrift b c).alerts ≠ [] ∧
    (detectDrift b c).alerts =
      (if ¬((c.walk : ℚ) < (b.walk : ℚ) * 0.8) ∧
          ¬((c.transitions : ℚ) > (b.transitions : ℚ) * 1.2) ∧
          ¬((c.static : ℚ) > (b.static : ℚ) * 1.25)
       then ["No significant mobility drift detected."]
       else
         (if (c.walk : ℚ) < (b.walk : ℚ) * 0.8
           then ["Walking activity has declined compared to baseline."] else []) ++
         (if (c.transitions : ℚ) > (b.transitions : ℚ) * 1.2
           then ["Increase in unstable transitions detected."] else []) ++
         (if (c.static : ℚ) > (b.static : ℚ) * 1.25
           then ["Prolonged inactivity compared to baseline."] else [])) := by
  simp only [detectDrift, mapDriftLevel]
  split_ifs <;> simp_all

open BaselineDrift in
/-- C5: when the baseline walk count is 0, the walking-decline rule never
fires — the drift score is contributed only by the transitions and static
rules, and the walking-decline narrative never appears — because a
non-negative current walk count cannot be `< 0 * 0.8 = 0`. -/
theorem C5_walk_rule_vacuous_on_zero_baseline (b c : Metrics) (h : b.walk = 0) :
    (detectDrift b c).drift_score =
      ((if (c.transitions : ℚ) > (b.transitions : ℚ) * 1.2 then 1 else 0) +
       (if (c.static : ℚ) > (b.static : ℚ) * 1.25 then 1 else 0) : ℕ) ∧
    "Walking activity has declined compared to baseline." ∉ (detectDrift b c).alerts := by
  have hf1 : ¬((c.walk : ℚ) < (b.walk : ℚ) * 0.8) := by
    rw [h, not_lt]
    push_cast
    have : (0 : ℚ) ≤ (c.walk : ℚ) := Nat.cast_nonneg c.walk
    linarith
  simp only [detectDrift, mapDriftLevel, hf1]
  split_ifs <;> simp_all

/-- C5 witness: a zero baseline together with the current week
(5 walk, 10 transitions, 10 static) never produces the walking-decline
narrative. -/
theorem C5_walk_rule_vacuous_on_zero_baseline_witness :
    "Walking activity has declined compared to baseline." ∉
      (BaselineDrift.detectDrift ⟨0, 0, 0⟩ ⟨5, 10, 10⟩).alerts :=
  (C5_walk_rule_vacuous_on_zero_baseline ⟨0, 0, 0⟩ ⟨5, 10, 10⟩ rfl).2

namespace BaselineDrift

/-- Scenario A's event stream: seven baseline days (day numbers 0–6) with
40 Walk + 5 Transitions + 10 Static each, then seven current days (7–13)
with 20 Walk + 15 Transitions + 25 Static each. -/
def scenarioAEvents : List ActivityEvent :=
  ((List.range 7).flatMap (fun d =>
    List.replicate 40 ⟨(d : ℤ), "Walk"⟩ ++ List.replicate 5 ⟨(d : ℤ), "Transitions"⟩ ++
    List.replicate 10 ⟨(d : ℤ), "Static"⟩)) ++
  ((List.range 7).flatMap (fun d =>
    List.replicate 20 ⟨(d : ℤ) + 7, "Walk"⟩ ++ List.replicate 15 ⟨(d : ℤ) + 7, "Transitions"⟩ ++
    List.replicate 25 ⟨(d : ℤ) + 7, "Static"⟩))

/-- The scenario-A detector store, built by feeding every event through
`add_event` in arrival order. -/
def scenarioAStore : List ActivityEvent := scenarioAEvents.foldl addEvent []

theorem foldl_addEvent (l acc : List ActivityEvent) : l.foldl addEvent acc = acc ++ l := by
  induction l generalizing acc with
  | nil => simp
  | cons x xs ih => simp [addEvent, ih]

theorem scenarioAStore_eq : scenarioAStore = scenarioAEvents := by
  rw [scenarioAStore, foldl_addEvent, List.nil_append]

set_option maxRecDepth 100000 in
set_option maxHeartbeats 1000000 in
theorem scenarioA_baseline : computeBaseline scenarioAStore 7 0 = ⟨280, 35, 70⟩ := by
  rw [scenarioAStore_eq]; decide

set_option maxRecDepth 100000 in
set_option maxHeartbeats 1000000 in
theorem scenarioA_current : computeCurrentWeek scenarioAStore 13 = ⟨140, 105, 175⟩ := by
  rw [scenarioAStore_eq]; decide

end BaselineDrift

open BaselineDrift in
/-- C4: on a store holding 280 Walk + 35 Transitions + 70 Static baseline
events over days 0–6 and 140 Walk + 105 Transitions + 175 Static current
events over days 7–13 (built via `add_event`), `compute_baseline` and
`compute_current_week` produce those counts and `detect_drift` on the two
metric dicts returns drift score 3, level "High", and all three narrative
alerts. -/
theorem C4_scenario_a :
    computeBaseline scenarioAStore 7 0 = ⟨280, 35, 70⟩ ∧
    computeCurrentWeek scenarioAStore 13 = ⟨140, 105, 175⟩ ∧
    detectDrift (computeBaseline scenarioAStore 7 0) (computeCurrentWeek scenarioAStore 13) =
      ⟨3, "High",
       ["Walking activity has declined compared to baseline.",
        "Increase in unstable transitions detected.",
        "Prolonged inactivity compared to baseline."]⟩ := by
  refine ⟨scenarioA_baseline, scenarioA_current, ?_⟩
  rw [scenarioA_baseline, scenarioA_current]
  simp only [detectDrift, mapDriftLevel]
  norm_num
  exact fun h => absurd h (by simp)

namespace CaregiverAlerts

theorem analyzeRiskTrend_short {history : List ℚ} (h : history.length < 3) :
    analyzeRiskTrend history = "Stable" := by
  simp only [analyzeRiskTrend, if_pos h]

theorem analyzeRiskTrend_last3 (pre : List ℚ) (s0 s1 s2 : ℚ) :
    analyzeRiskTrend (pre ++ [s0, s1, s2]) =
      (if s2 > 70 then "High"
       else if s0 < s1 ∧ s1 < s2 then "Increasing"
       else "Stable") := by
  have hlen : (pre ++ [s0, s1, s2]).length = pre.length + 3 := by simp
  simp only [analyzeRiskTrend, hlen, Nat.add_sub_cancel]
  rw [if_neg (by omega : ¬(pre.length + 3 < 3)), List.drop_left]

end CaregiverAlerts

open CaregiverAlerts in
/-- C7: the trend classification returns "Stable" whenever the history has
fewer than 3 snapshots; otherwise over the last three scores (s0, s1, s2) it
returns "High" if s2 > 70 (checked first), else "Increasing" if s0 < s1 < s2
strictly, else "Stable"; in particular [42.0, 55.0, 68.0] yields
"Increasing". -/
theorem C7_risk_trend :
    (∀ history : List ℚ, history.length < 3 → analyzeRiskTrend history = "Stable") ∧
    (∀ (pre : List ℚ) (s0 s1 s2 : ℚ),
      analyzeRiskTrend (pre ++ [s0, s1, s2]) =
        (if s2 > 70 then "High"
         else if s0 < s1 ∧ s1 < s2 then "Increasing"
         else "Stable")) ∧
    analyzeRiskTrend [42, 55, 68] = "Increasing" := by
  refine ⟨fun _ h => analyzeRiskTrend_short h, analyzeRiskTrend_last3, ?_⟩
  have h := analyzeRiskTrend_last3 [] 42 55 68
  rw [List.nil_append] at h
  rw [h]
  norm_num

/-- C7 witness: a single-snapshot history classifies as "Stable". -/
theorem C7_risk_trend_witness : CaregiverAlerts.analyzeRiskTrend [50] = "Stable" :=
  C7_risk_trend.1 [50] (by simp)

namespace CaregiverAlerts

theorem severityRank_le_two (s : String) : severityRank s ≤ 2 := by
  unfold severityRank
  split_ifs <;> omega

theorem sevAfterIncreasing_mono (trend : String) :
    severityRank "Low" ≤ severityRank (sevAfterIncreasing trend) :=
  by simp [severityRank]

theorem sevAfterHigh_mono (trend s : String) :
    severityRank s ≤ severityRank (sevAfterHigh trend s) := by
  unfold sevAfterHigh
  split_ifs
  · simpa [severityRank] using severityRank_le_two s
  · exact le_refl _

theorem sevAfterDriftMedium_mono (driftLevel s : String) :
    severityRank s ≤ severityRank (sevAfterDriftMedium driftLevel s) := by
  unfold sevAfterDriftMedium maxSeverity
  split_ifs with h1 h2
  · exact le_refl _
  · omega
  · exact le_refl _

theorem sevAfterDriftHigh_mono (driftLevel s : String) :
    severityRank s ≤ severityRank (sevAfterDriftHigh driftLevel s) := by
  unfold sevAfterDriftHigh
  split_ifs
  · simpa [severityRank] using severityRank_le_two s
  · exact le_refl _

/-- Claim-side rank ladder Low(0) < Medium(1) < High(2), written back to a
label. -/
def specRankLabel (n : ℕ) : String :=
  if n = 0 then "Low" else if n = 1 then "Medium" else "High"

/-- Claim-side rank contributed by the two trend rules. -/
def specTrendRank (trend : String) : ℕ :=
  if trend = "High" then 2 else if trend = "Increasing" then 1 else 0

/-- Claim-side rank contributed by the two drift-level rules. -/
def specDriftRank (driftLevel : String) : ℕ :=
  if driftLevel = "High" then 2 else if driftLevel = "Medium" then 1 else 0

theorem finalSeverity_eq_max (trend driftLevel : String) :
    finalSeverity trend driftLevel =
      specRankLabel (max (specTrendRank trend) (specDriftRank driftLevel)) := by
  unfold finalSeverity sevAfterDriftHigh sevAfterDriftMedium sevAfterHigh sevAfterIncreasing
    maxSeverity severityRank specRankLabel specTrendRank specDriftRank
  by_cases hI : trend = "Increasing" <;> by_cases hH : trend = "High" <;>
    by_cases hdM : driftLevel = "Medium" <;> by_cases hdH : driftLevel = "High" <;>
    simp_all

end CaregiverAlerts

open CaregiverAlerts in
/-- C8: for every trend label and DriftResult, the severity of the alert
composer is non-decreasing along its fixed rule order, the final severity is
the maximum rank Low(0) < Medium(1) < High(2) reached by any fired rule, and
the returned messages list is non-empty and ends with exactly one closing
recommendation determined by the final severity. -/
theorem C8_alert_composer (userId trend : String) (hist : List ℚ) (drift : DriftResult) :
    (severityRank "Low" ≤ severityRank (sevAfterIncreasing trend) ∧
     severityRank (sevAfterIncreasing trend) ≤
       severityRank (sevAfterHigh trend (sevAfterIncreasing trend)) ∧
     severityRank (sevAfterHigh trend (sevAfterIncreasing trend)) ≤
       severityRank (sevAfterDriftMedium drift.drift_level
         (sevAfterHigh trend (sevAfterIncreasing trend))) ∧
     severityRank (sevAfterDriftMedium drift.drift_level
         (sevAfterHigh trend (sevAfterIncreasing trend))) ≤
       severityRank (sevAfterDriftHigh drift.drift_level
         (sevAfterDriftMedium drift.drift_level
           (sevAfterHigh trend (sevAfterIncreasing trend))))) ∧
    (composeAlert userId trend hist drift).severity =
      specRankLabel (max (specTrendRank trend) (specDriftRank drift.drift_level)) ∧
    (composeAlert userId trend hist drift).messages =
      preMessages trend drift ++
        [recommendationOf (composeAlert userId trend hist drift).severity] ∧
    (composeAlert userId trend hist drift).messages ≠ [] ∧
    recommendationOf "High" = "Recommend immediate caregiver check-in or medical consultation." ∧
    recommendationOf "Medium" = "Recommend caregiver monitoring and follow-up." ∧
    recommendationOf "Low" = "Mobility stable. No immediate intervention required." := by
  refine ⟨⟨sevAfterIncreasing_mono trend, sevAfterHigh_mono trend _,
    sevAfterDriftMedium_mono drift.drift_level _, sevAfterDriftHigh_mono drift.drift_level _⟩,
    finalSeverity_eq_max trend drift.drift_level, rfl, by simp [composeAlert], ?_, ?_, ?_⟩
  · simp [recommendationOf]
  · simp [recommendationOf]
  · simp [recommendationOf]

namespace WorkplaceSafety

theorem logViolation_count_le (s : EngineState) (userId violationType severity zone u : String) :
    s.user_violation_count u ≤
      (logViolation s userId violationType severity zone).user_violation_count u := by
  unfold logViolation
  by_cases h : u = userId
  · subst h
    simp [Function.update]
  · simp [Function.update, h]

theorem evaluateEvent_count_le (s : EngineState) (z : ZoneEvent) (a : ActivityEvent)
    (u : String) :
    s.user_violation_count u ≤ (evaluateEvent s z a).user_violation_count u := by
  unfold evaluateEvent
  split_ifs <;>
    solve
      | exact le_refl _
      | exact le_trans (logViolation_count_le ..)
          (le_trans (logViolation_count_le ..) (logViolation_count_le ..))
      | exact le_trans (logViolation_count_le ..) (logViolation_count_le ..)
      | exact logViolation_count_le ..

theorem foldl_evaluateEvent_count_le (s : EngineState)
    (calls : List (ZoneEvent × ActivityEvent)) (u : String) :
    s.user_violation_count u ≤
      (calls.foldl (fun st c => evaluateEvent st c.1 c.2) s).user_violation_count u := by
  induction calls generalizing s with
  | nil => exact le_refl _
  | cons c cs ih =>
    exact le_trans (evaluateEvent_count_le s c.1 c.2 u) (ih (evaluateEvent s c.1 c.2))

/-- Claim-side escalation ladder: 0 → No Action, 1–2 → Warning,
3–4 → Supervisor Alert, ≥5 → Admin Escalation. -/
def specEscalation (count : ℕ) : String :=
  if count = 0 then "No Action"
  else if count ≤ 2 then "Warning"
  else if count ≤ 4 then "Supervisor Alert"
  else "Admin Escalation"

end WorkplaceSafety

open WorkplaceSafety in
/-- C9: across every sequence of `evaluate_event` calls a fixed user's
violation counter never decreases; the escalation level realises the ladder
0 → "No Action", 1–2 → "Warning", 3–4 → "Supervisor Alert",
≥5 → "Admin Escalation" as a pure function of the counter; the safety score
is `max(100 − 15×count, 0)`; and a count of 5 yields "Admin Escalation" with
safety score 25. -/
theorem C9_violation_counter_monotone :
    (∀ (s : EngineState) (calls : List (ZoneEvent × ActivityEvent)) (u : String),
      s.user_violation_count u ≤
        (calls.foldl (fun st c => evaluateEvent st c.1 c.2) s).user_violation_count u) ∧
    (∀ (s : EngineState) (u : String),
      getEscalationLevel s u = specEscalation (s.user_violation_count u)) ∧
    (∀ (s : EngineState) (u : String),
      computeSafetyScore s u = max (100 - 15 * (s.user_violation_count u : ℤ)) 0) ∧
    (∀ (s : EngineState) (u : String), s.user_violation_count u = 5 →
      getEscalationLevel s u = "Admin Escalation" ∧ computeSafetyScore s u = 25) := by
  refine ⟨foldl_evaluateEvent_count_le, fun s u => ?_, fun s u => ?_, fun s u h5 => ?_⟩
  · simp only [getEscalationLevel, specEscalation]
    split_ifs <;> first | rfl | omega
  · simp only [computeSafetyScore]
    ring_nf
  · simp only [getEscalationLevel, computeSafetyScore, h5]
    norm_num

open WorkplaceSafety in
/-- C9 witness: a state with a violation count of 5 escalates to
"Admin Escalation" with safety score 25. -/
theorem C9_violation_counter_monotone_witness :
    getEscalationLevel ⟨[], fun _ => 5⟩ "EMP_101" = "Admin Escalation" ∧
    computeSafetyScore ⟨[], fun _ => 5⟩ "EMP_101" = 25 :=
  C9_violation_counter_monotone.2.2.2 ⟨[], fun _ => 5⟩ "EMP_101" rfl

namespace WorkplaceSafety

theorem evaluateEvent_exercise (s : EngineState) (z : ZoneEvent) (a : ActivityEvent)
    (hid : z.user_id = a.user_id) (h : a.activity = "Exercise") :
    (evaluateEvent s z a).user_violation_count a.user_id =
      s.user_violation_count a.user_id + 1 ∧
    (evaluateEvent s z a).violations =
      s.violations ++ [⟨a.user_id, "Overexertion detected", "Medium"⟩] := by
  simp [evaluateEvent, h, hid, logViolation, Function.update]

theorem evaluateEvent_static (s : EngineState) (z : ZoneEvent) (a : ActivityEvent)
    (hid : z.user_id = a.user_id) (h : a.activity = "Static") :
    (evaluateEvent s z a).user_violation_count a.user_id =
      s.user_violation_count a.user_id + 1 ∧
    (evaluateEvent s z a).violations =
      s.violations ++ [⟨a.user_id, "Prolonged inactivity (collapse risk)", "Medium"⟩] := by
  simp [evaluateEvent, h, hid, logViolation, Function.update]

theorem evaluateEvent_transitions (s : EngineState) (z : ZoneEvent) (a : ActivityEvent)
    (h : a.activity = "Transitions") : evaluateEvent s z a = s := by
  simp [evaluateEvent, h]

end WorkplaceSafety

namespace ContextEngine

theorem workplaceLogic_exercise (counts : String → ℕ) (ev : CEvent) (z : Option ZEvent)
    (h : ev.activity = "Exercise") :
    (workplaceLogic counts ev z).2.violations = ["Overexertion risk"] ∧
    (workplaceLogic counts ev z).1 ev.user_id = counts ev.user_id + 1 := by
  rcases z with _ | z <;> simp [workplaceLogic, h, Function.update]

theorem workplaceLogic_static (counts : String → ℕ) (ev : CEvent) (z : Option ZEvent)
    (h : ev.activity = "Static") :
    (workplaceLogic counts ev z).2.violations = ["Possible collapse risk"] ∧
    (workplaceLogic counts ev z).1 ev.user_id = counts ev.user_id + 1 := by
  rcases z with _ | z <;> simp [workplaceLogic, h, Function.update]

theorem workplaceLogic_transitions (counts : String → ℕ) (ev : CEvent) (z : Option ZEvent)
    (h : ev.activity = "Transitions") :
    (workplaceLogic counts ev z).2.violations = ["Unsafe posture detected"] ∧
    (workplaceLogic counts ev z).1 ev.user_id = counts ev.user_id + 1 := by
  rcases z with _ | z <;> simp [workplaceLogic, h, Function.update]

end ContextEngine

/-- C2 counterexample: a matching zone/activity pair with activity
"Transitions" leaves `WorkplaceSafetyEngine.evaluate_event`'s state
untouched — no violation is recorded and the counter is not incremented,
contrary to the claim that Transitions triggers a violation in both entry
points. -/
theorem C2_counterexample :
    (WorkplaceSafety.evaluateEvent WorkplaceSafety.initState ⟨"u1", "Safe_Zone"⟩
        ⟨"u1", "Transitions"⟩).user_violation_count "u1" = 0 ∧
    (WorkplaceSafety.evaluateEvent WorkplaceSafety.initState ⟨"u1", "Safe_Zone"⟩
        ⟨"u1", "Transitions"⟩).violations = [] := by
  rw [WorkplaceSafety.evaluateEvent_transitions _ _ _ rfl]
  exact ⟨rfl, rfl⟩

/-- C2 (amended): in `ContextEngine._workplace_logic` an activity of
"Exercise", "Static" or "Transitions" each independently triggers a violation
— incrementing that user's counter and recording the violation — regardless
of the zone value; in `WorkplaceSafetyEngine.evaluate_event` only "Exercise"
and "Static" do so (each regardless of zone), while "Transitions" triggers no
violation there. -/
theorem C2_workplace_activity_rules :
    (∀ (counts : String → ℕ) (ev : ContextEngine.CEvent) (z : Option ContextEngine.ZEvent),
      ev.activity = "Exercise" →
        (ContextEngine.workplaceLogic counts ev z).2.violations = ["Overexertion risk"] ∧
        (ContextEngine.workplaceLogic counts ev z).1 ev.user_id = counts ev.user_id + 1) ∧
    (∀ (counts : String → ℕ) (ev : ContextEngine.CEvent) (z : Option ContextEngine.ZEvent),
      ev.activity = "Static" →
        (ContextEngine.workplaceLogic counts ev z).2.violations = ["Possible collapse risk"] ∧
        (ContextEngine.workplaceLogic counts ev z).1 ev.user_id = counts ev.user_id + 1) ∧
    (∀ (counts : String → ℕ) (ev : ContextEngine.CEvent) (z : Option ContextEngine.ZEvent),
      ev.activity = "Transitions" →
        (ContextEngine.workplaceLogic counts ev z).2.violations = ["Unsafe posture detected"] ∧
        (ContextEngine.workplaceLogic counts ev z).1 ev.user_id = counts ev.user_id + 1) ∧
    (∀ (s : WorkplaceSafety.EngineState) (z : WorkplaceSafety.ZoneEvent)
        (a : WorkplaceSafety.ActivityEvent),
      z.user_id = a.user_id → a.activity = "Exercise" →
        (WorkplaceSafety.evaluateEvent s z a).user_violation_count a.user_id =
          s.user_violation_count a.user_id + 1 ∧
        (WorkplaceSafety.evaluateEvent s z a).violations =
          s.violations ++ [⟨a.user_id, "Overexertion detected", "Medium"⟩]) ∧
    (∀ (s : WorkplaceSafety.EngineState) (z : WorkplaceSafety.ZoneEvent)
        (a : WorkplaceSafety.ActivityEvent),
      z.user_id = a.user_id → a.activity = "Static" →
        (WorkplaceSafety.evaluateEvent s z a).user_violation_count a.user_id =
          s.user_violation_count a.user_id + 1 ∧
        (WorkplaceSafety.evaluateEvent s z a).violations =
          s.violations ++ [⟨a.user_id, "Prolonged inactivity (collapse risk)", "Medium"⟩]) ∧
    (∀ (s : WorkplaceSafety.EngineState) (z : WorkplaceSafety.ZoneEvent)
        (a : WorkplaceSafety.ActivityEvent),
      a.activity = "Transitions" → WorkplaceSafety.evaluateEvent s z a = s) :=
  ⟨ContextEngine.workplaceLogic_exercise, ContextEngine.workplaceLogic_static,
   ContextEngine.workplaceLogic_transitions, WorkplaceSafety.evaluateEvent_exercise,
   WorkplaceSafety.evaluateEvent_static, WorkplaceSafety.evaluateEvent_transitions⟩

/-- C2 witness: concrete instantiations of all six rule behaviours. -/
theorem C2_workplace_activity_rules_witness :
    (ContextEngine.workplaceLogic (fun _ => 0) ⟨"u", "Exercise", none⟩ none).2.violations =
      ["Overexertion risk"] ∧
    (ContextEngine.workplaceLogic (fun _ => 0) ⟨"u", "Static", none⟩ none).2.violations =
      ["Possible collapse risk"] ∧
    (ContextEngine.workplaceLogic (fun _ => 0) ⟨"u", "Transitions", none⟩ none).2.violations =
      ["Unsafe posture detected"] ∧
    (WorkplaceSafety.evaluateEvent WorkplaceSafety.initState ⟨"u", "Safe_Zone"⟩
        ⟨"u", "Exercise"⟩).user_violation_count "u" = 1 ∧
    (WorkplaceSafety.evaluateEvent WorkplaceSafety.initState ⟨"u", "Safe_Zone"⟩
        ⟨"u", "Static"⟩).user_violation_count "u" = 1 ∧
    WorkplaceSafety.evaluateEvent WorkplaceSafety.initState ⟨"u", "Safe_Zone"⟩
        ⟨"u", "Transitions"⟩ = WorkplaceSafety.initState :=
  ⟨(C2_workplace_activity_rules.1 (fun _ => 0) ⟨"u", "Exercise", none⟩ none rfl).1,
   (C2_workplace_activity_rules.2.1 (fun _ => 0) ⟨"u", "Static", none⟩ none rfl).1,
   (C2_workplace_activity_rules.2.2.1 (fun _ => 0) ⟨"u", "Transitions", none⟩ none rfl).1,
   (C2_workplace_activity_rules.2.2.2.1 WorkplaceSafety.initState ⟨"u", "Safe_Zone"⟩
      ⟨"u", "Exercise"⟩ rfl rfl).1,
   (C2_workplace_activity_rules.2.2.2.2.1 WorkplaceSafety.initState ⟨"u", "Safe_Zone"⟩
      ⟨"u", "Static"⟩ rfl rfl).1,
   C2_workplace_activity_rules.2.2.2.2.2 WorkplaceSafety.initState ⟨"u", "Safe_Zone"⟩
      ⟨"u", "Transitions"⟩ rfl⟩

namespace ContextEngine

theorem elderlyLogic_highFall_insight (ev : CEvent) :
    "High fall risk detected" ∈ (elderlyLogic ev).insights ↔
      ∃ p, ev.fall_prob = some p ∧ p > 0.6 := by
  rcases ev with ⟨uid, act, _ | p⟩ <;> simp [elderlyLogic]
  norm_num

theorem elderlyLogic_fallRisk_contrib (ev : CEvent) :
    "fall_risk" ∈ (elderlyLogic ev).risk_contributors ↔
      ∃ p, ev.fall_prob = some p ∧ p > 0.6 := by
  rcases ev with ⟨uid, act, _ | p⟩ <;> simp [elderlyLogic]
  norm_num

end ContextEngine

open ContextEngine in
/-- C10: `route_event` for an elderly-role profile returns the
`_elderly_logic` record without touching the workplace counters; an activity
event lacking the `fall_prob` field is treated as `fall_prob` 0.0, so the
"High fall risk detected" insight and the "fall_risk" contributor appear iff
a `fall_prob` strictly greater than 0.6 was supplied (never for an absent
field), and the returned `fall_probability` is the defaulted `fall_prob`
rounded to two decimal places. -/
theorem C10_elderly_fall_prob_default :
    (∀ (counts : String → ℕ) (profile : Profile) (ev : CEvent) (z : Option ZEvent),
      profile.role = "elderly" →
        routeEvent counts profile ev z = (counts, RouteResult.elderly (elderlyLogic ev))) ∧
    (∀ ev : CEvent,
      ("High fall risk detected" ∈ (elderlyLogic ev).insights ↔
        ∃ p, ev.fall_prob = some p ∧ p > 0.6) ∧
      ("fall_risk" ∈ (elderlyLogic ev).risk_contributors ↔
        ∃ p, ev.fall_prob = some p ∧ p > 0.6) ∧
      (elderlyLogic ev).fall_probability = round2 (ev.fall_prob.getD 0)) := by
  refine ⟨fun counts profile ev z h => ?_, fun ev =>
    ⟨elderlyLogic_highFall_insight ev, elderlyLogic_fallRisk_contrib ev, rfl⟩⟩
  simp [routeEvent, h]

open ContextEngine in
/-- C10 witness: an elderly event with no `fall_prob` field routes to the
elderly record and shows neither the high-fall-risk insight nor the
`fall_risk` contributor. -/
theorem C10_elderly_fall_prob_default_witness :
    routeEvent (fun _ => 0) ⟨"ELD_01", "elderly"⟩ ⟨"ELD_01", "Walk", none⟩ none =
      ((fun _ => 0), RouteResult.elderly (elderlyLogic ⟨"ELD_01", "Walk", none⟩)) ∧
    ¬("High fall risk detected" ∈ (elderlyLogic ⟨"ELD_01", "Walk", none⟩).insights) :=
  ⟨C10_elderly_fall_prob_default.1 (fun _ => 0) ⟨"ELD_01", "elderly"⟩
      ⟨"ELD_01", "Walk", none⟩ none rfl,
   fun h => by
     obtain ⟨p, hp, _⟩ := ((C10_elderly_fall_prob_default.2 ⟨"ELD_01", "Walk", none⟩).1).mp h
     exact Option.noConfusion hp⟩
